import Mathlib

/-!
Shallow embedding of the beacon-backend GraphQL resolvers
(src/graphql/resolvers.js) over explicit state.

The document store is modelled as an in-memory list of records; `new Date()`
is an explicit `now : Int` parameter; the nanoid shortcode generator is the
explicit `code` argument (the resolver calls it exactly once); bcrypt is the
abstract `verifySecret` parameter; geolib's `isPointWithinRadius` is the
abstract `withinRadius` parameter (the spec treats both as external).
Errors are returned as data (`Except`), mirroring the resolvers, which
`return` error objects instead of throwing. Each mutation returns its result
together with the updated store and the list of pub/sub publications it made
(topic string plus payload, exactly the pairs passed to `pubsub.publish`).
-/

structure Location where
  lat : Int
  lon : Int
deriving Repr, DecidableEq

structure UserRec where
  id : String
  name : String
  email : Option String
  password : Option String
  location : Option Location
  beacons : List String
deriving Repr, DecidableEq

structure BeaconRec where
  id : String
  shortcode : String
  leader : String
  followers : List String
  location : Location
  landmarks : List String
  expiresAt : Int
deriving Repr, DecidableEq

inductive ResolverError where
  | UserInputError (msg : String)
  | AuthenticationError (msg : String)
  | GenericError (msg : String)
deriving Repr, DecidableEq

/-- A payload object handed to `pubsub.publish`. -/
inductive Payload where
  | beaconLocation (location : Location) (beaconID : String)
  | userLocation (user : UserRec) (beaconID : String)
  | beaconJoined (user : UserRec) (beaconID : String)
deriving Repr, DecidableEq

/-- One `pubsub.publish(topic, payload)` call. -/
structure Published where
  topic : String
  payload : Payload
deriving Repr, DecidableEq

/-- `Beacon.findById(id)`. -/
def findById (db : List BeaconRec) (id : String) : Option BeaconRec :=
  db.find? (fun b => b.id == id)

/-- `Beacon.findOne({ shortcode })`. -/
def findByShortcode (db : List BeaconRec) (sc : String) : Option BeaconRec :=
  db.find? (fun b => b.shortcode == sc)

/-- `User.findById(id)`. -/
def findUserById (db : List UserRec) (id : String) : Option UserRec :=
  db.find? (fun u => u.id == id)

/-- `User.findOne({ email })`. -/
def findUserByEmail (db : List UserRec) (email : String) : Option UserRec :=
  db.find? (fun u => u.email == some email)

/-- `beacon.save()`: write the (id-keyed) document back to the store. -/
def saveBeacon (db : List BeaconRec) (b : BeaconRec) : List BeaconRec :=
  db.map (fun x => if x.id == b.id then b else x)

/-- `Query.beacon` (resolvers.js lines 20-27): look the beacon up by id,
then the membership test `beacon.leader === user.id || beacon.followers.includes(user)`
guards the `"User should be a part of beacon"` error, with the beacon
returned on the other branch. -/
def getBeacon (db : List BeaconRec) (user : UserRec) (id : String) :
    Except ResolverError BeaconRec :=
  match findById db id with
  | none => .error (.UserInputError "No beacon exists with that id.")
  | some beacon =>
      if beacon.leader = user.id ∨ user.id ∈ beacon.followers then
        .error (.GenericError "User should be a part of beacon")
      else
        .ok beacon

/-- `Query.nearbyBeacons` (lines 28-39): `Beacon.find({ expiresAt: { $gte: new Date() } })`,
then keep the beacons whose location is within 1500 m of the query point. -/
def nearbyBeacons (db : List BeaconRec) (now : Int)
    (withinRadius : Location → Location → Int → Bool)
    (location : Location) : List BeaconRec :=
  let beacons := db.filter (fun b => decide (now ≤ b.expiresAt))
  beacons.filter (fun b => withinRadius b.location location 1500)

structure Credentials where
  email : String
  password : String
deriving Repr, DecidableEq

/-- The claims a successful login embeds in the signed JWT. -/
structure TokenClaims where
  anon : Bool
  email : Option String
  subject : String
deriving Repr, DecidableEq

/-- `Mutation.login` (lines 62-97). `id`/`credentials` are the optional
GraphQL arguments; the guard rejects only when both are absent; the user is
loaded by id when `id` is present, else by the credentials email; then the
not-found, id-only-for-registered, and password checks, in source order. -/
def login (db : List UserRec) (verifySecret : String → String → Bool)
    (id : Option String) (credentials : Option Credentials) :
    Except ResolverError TokenClaims :=
  if id.isNone && credentials.isNone then
    .error (.UserInputError "One of ID and credentials required")
  else
    let user? :=
      match id with
      | some i => findUserById db i
      | none =>
          match credentials with
          | some c => findUserByEmail db c.email
          | none => none
    match user? with
    | none => .error (.GenericError "User not found.")
    | some user =>
        if user.email.isSome && credentials.isNone then
          .error (.UserInputError "Email/password required to login")
        else
          match credentials with
          | some c =>
              if some c.email == user.email
                  && verifySecret c.password (user.password.getD "") then
                .ok { anon := false, email := some c.email, subject := user.id }
              else
                .error (.AuthenticationError "credentials don\x27t match")
          | none => .ok { anon := true, email := none, subject := user.id }

/-- The `beacon` argument of `createBeacon`: `startLocation` plus `expiresAt`,
and — since a JS object may carry any extra keys — optional `leader`,
`shortcode` and `location` keys (`none` = key absent). -/
structure BeaconInput where
  startLocation : Location
  expiresAt : Int
  leader : Option String := none
  shortcode : Option String := none
  location : Option Location := none
deriving Repr, DecidableEq

/-- The document built by `new Beacon({ leader: user.id, shortcode: nanoid(),
location: beacon.startLocation, ...beacon })` (lines 102-107): the spread is
last, so a key present in the input overrides the generated field. -/
def createBeaconDoc (userId code newId : String) (beacon : BeaconInput) : BeaconRec :=
  { id := newId
    leader := beacon.leader.getD userId
    shortcode := beacon.shortcode.getD code
    location := beacon.location.getD beacon.startLocation
    followers := []
    landmarks := []
    expiresAt := beacon.expiresAt }

/-- `Mutation.createBeacon` (lines 99-114): build the document, save it, and
append its id to the caller's `beacons`. `code` is the one value `nanoid()`
returned; `newId` the store-assigned document id. No publish. -/
def createBeacon (db : List BeaconRec) (user : UserRec) (newId code : String)
    (beacon : BeaconInput) : BeaconRec × List BeaconRec × UserRec :=
  let newBeacon := createBeaconDoc user.id code newId beacon
  (newBeacon, db ++ [newBeacon],
   { user with beacons := user.beacons ++ [newBeacon.id] })

/-- `Mutation.joinBeacon` (lines 116-131): find by shortcode; reject unknown
shortcode; reject `beacon.followers.includes(user)`; otherwise push the
follower, save, publish `BEACON_JOINED`, and append to the user's beacons. -/
def joinBeacon (db : List BeaconRec) (user : UserRec) (sc : String) :
    Except ResolverError BeaconRec × List BeaconRec × UserRec × List Published :=
  match findByShortcode db sc with
  | none => (.error (.UserInputError "No beacon exists with that shortcode."), db, user, [])
  | some beacon =>
      if user.id ∈ beacon.followers then
        (.error (.GenericError "Already following the beacon"), db, user, [])
      else
        let b := { beacon with followers := beacon.followers ++ [user.id] }
        (.ok b, saveBeacon db b,
         { user with beacons := user.beacons ++ [b.id] },
         [{ topic := "BEACON_JOINED", payload := .beaconJoined user b.id }])

/-- `Mutation.updateBeaconLocation` (lines 147-160): unknown id and
non-leader callers get an error before any publish or save; for the leader,
publish `BEACON_LOCATION` and persist the new location. -/
def updateBeaconLocation (db : List BeaconRec) (user : UserRec) (id : String)
    (location : Location) :
    Except ResolverError BeaconRec × List BeaconRec × List Published :=
  match findById db id with
  | none => (.error (.UserInputError "No beacon exists with that id."), db, [])
  | some beacon =>
      if beacon.leader ≠ user.id then
        (.error (.GenericError "Only the beacon leader can update beacon location"), db, [])
      else
        let b := { beacon with location := location }
        (.ok b, saveBeacon db b,
         [{ topic := "BEACON_LOCATION", payload := .beaconLocation location beacon.id }])

/-- `Mutation.updateUserLocation` (lines 162-173): requires the beacon to
exist, saves the caller's location, and publishes the updated user on topic
`USER_LOCATION` scoped by the beacon id. -/
def updateUserLocation (db : List BeaconRec) (user : UserRec) (id : String)
    (location : Location) :
    Except ResolverError UserRec × UserRec × List Published :=
  match findById db id with
  | none => (.error (.UserInputError "No beacon exists with that id."), user, [])
  | some beacon =>
      let u := { user with location := some location }
      (.ok u, u, [{ topic := "USER_LOCATION", payload := .userLocation u beacon.id }])

/-- `Mutation.changeLeader` (lines 175-185): unknown id and non-leader
callers get an error; for the leader, only `leader` is reassigned. -/
def changeLeader (db : List BeaconRec) (user : UserRec)
    (beaconID newLeaderID : String) :
    Except ResolverError BeaconRec × List BeaconRec :=
  match findById db beaconID with
  | none => (.error (.UserInputError "No beacon exists with that id."), db)
  | some beacon =>
      if beacon.leader ≠ user.id then
        (.error (.GenericError "Only the beacon leader can update leader"), db)
      else
        let b := { beacon with leader := newLeaderID }
        (.ok b, saveBeacon db b)

/-- `payload.beaconID`, present on every payload shape. -/
def payloadBeaconID : Payload → String
  | .beaconLocation _ bid => bid
  | .userLocation _ bid => bid
  | .beaconJoined _ bid => bid

/-- `payload.userLocation`: defined only on `USER_LOCATION`-style payloads;
`none` models the key being absent (JS `undefined`). -/
def payloadUserLocation : Payload → Option UserRec
  | .userLocation u _ => some u
  | _ => none

/-- The topic list the `userLocation` subscription's `asyncIterator` is
created with (resolvers.js line 197). -/
def userLocationTopics : List String := ["BEACON_LOCATION"]

/-- The `withFilter` predicate of `Subscription.userLocation` (line 199):
`payload.beaconID === variables.id && payload.userLocation.id !== user.id`.
`&&` short-circuits, so a beacon-id mismatch yields `false`; otherwise
reading `.id` off an absent `payload.userLocation` is a TypeError, modelled
as `none`. -/
def userLocationFilter (payload : Payload) (subscribedId : String)
    (viewer : UserRec) : Option Bool :=
  if payloadBeaconID payload = subscribedId then
    match payloadUserLocation payload with
    | some u => some (u.id != viewer.id)
    | none => none
  else
    some false

/-- A publication reaches a `userLocation(subscribedId)` subscriber iff its
topic is among the subscription's topics and the filter yields `true`. -/
def userLocationDelivers (e : Published) (subscribedId : String)
    (viewer : UserRec) : Bool :=
  userLocationTopics.contains e.topic
    && (userLocationFilter e.payload subscribedId viewer == some true)

/-! ## Concrete fixtures -/

def anonUser (id : String) : UserRec :=
  { id := id, name := id, email := none, password := none,
    location := none, beacons := [] }

def fixedBeacon : BeaconRec :=
  { id := "b1", shortcode := "ABCDEF", leader := "u1", followers := ["u2"],
    location := { lat := 10, lon := 10 }, landmarks := [], expiresAt := 100 }

/-! ## C1 -/

/-- C1: code bug. The claim (and the resolver's own comment, "return beacon
iff user in beacon") says `Query.beacon` returns the beacon to members and
an authorization-style error to non-members. The code does the opposite: on
a beacon led by `u1` with follower `u2`, both the leader and the follower
get the `"User should be a part of beacon"` error, while the outsider `u3`
is handed the beacon — the membership test guards the wrong branch. -/
theorem getBeacon_membership_inverted :
    getBeacon [fixedBeacon] (anonUser "u1") "b1"
        = .error (.GenericError "User should be a part of beacon")
      ∧ getBeacon [fixedBeacon] (anonUser "u2") "b1"
        = .error (.GenericError "User should be a part of beacon")
      ∧ getBeacon [fixedBeacon] (anonUser "u3") "b1" = .ok fixedBeacon
      ∧ fixedBeacon.leader = (anonUser "u1").id
      ∧ (anonUser "u2").id ∈ fixedBeacon.followers
      ∧ ¬(fixedBeacon.leader = (anonUser "u3").id
          ∨ (anonUser "u3").id ∈ fixedBeacon.followers) :=
  ⟨rfl, rfl, rfl, rfl, by decide, by decide⟩

/-! ## C2 -/

/-- The publication `Mutation.updateUserLocation` makes when user `u2`
updates their location on beacon `b1`. -/
def c2Event : Published :=
  { topic := "USER_LOCATION",
    payload := .userLocation
      { anonUser "u2" with location := some { lat := 5, lon := 5 } } "b1" }

/-- C2: code bug. `updateUserLocation` publishes on topic `USER_LOCATION`,
but the `userLocation` subscription's iterator listens on `BEACON_LOCATION`
(resolvers.js line 197), so the event below — which satisfies every
condition of the claim (matching beacon id, updated user ≠ viewer) — is
never delivered to the viewer `u1`. Moreover, on the topic it does listen
to, a matching `beaconLocation` payload drives the filter into reading
`.id` off the absent `payload.userLocation` (a TypeError, modelled `none`). -/
theorem userLocation_subscription_misses_updates :
    (updateUserLocation [fixedBeacon] (anonUser "u2") "b1"
        { lat := 5, lon := 5 }).2.2 = [c2Event]
      ∧ payloadBeaconID c2Event.payload = "b1"
      ∧ payloadUserLocation c2Event.payload
          = some { anonUser "u2" with location := some { lat := 5, lon := 5 } }
      ∧ ({ anonUser "u2" with
            location := some { lat := 5, lon := 5 } } : UserRec).id
          ≠ (anonUser "u1").id
      ∧ userLocationDelivers c2Event "b1" (anonUser "u1") = false
      ∧ userLocationFilter (.beaconLocation { lat := 5, lon := 5 } "b1") "b1"
          (anonUser "u1") = none :=
  ⟨rfl, rfl, rfl, by decide, rfl, rfl⟩

/-! ## C3 -/

/-- An ordinary `createBeacon` argument carrying no extra keys. -/
def plainInput : BeaconInput :=
  { startLocation := { lat := 1, lon := 1 }, expiresAt := 100 }

/-- C3 counterexample: the claim says the generated shortcode is unique
among active beacons, with a retry on collision. Take `now = 0`, a store
holding the active beacon `fixedBeacon` (expires at 100) with shortcode
`"ABCDEF"`, and let the generator produce exactly `"ABCDEF"`: `createBeacon`
succeeds anyway, and afterwards two distinct active beacons carry the same
shortcode — no retry happened. -/
theorem createBeacon_collision_counterexample :
    (createBeacon [fixedBeacon] (anonUser "u5") "b2" "ABCDEF" plainInput).1.shortcode
        = fixedBeacon.shortcode
      ∧ (0 : Int) < fixedBeacon.expiresAt
      ∧ (createBeacon [fixedBeacon] (anonUser "u5") "b2" "ABCDEF" plainInput).1.id
          ≠ fixedBeacon.id
      ∧ fixedBeacon
          ∈ (createBeacon [fixedBeacon] (anonUser "u5") "b2" "ABCDEF" plainInput).2.1
      ∧ (createBeacon [fixedBeacon] (anonUser "u5") "b2" "ABCDEF" plainInput).1
          ∈ (createBeacon [fixedBeacon] (anonUser "u5") "b2" "ABCDEF" plainInput).2.1
      ∧ (0 : Int)
          < (createBeacon [fixedBeacon] (anonUser "u5") "b2" "ABCDEF" plainInput).1.expiresAt :=
  ⟨rfl, by decide, by decide, by decide, by decide, by decide⟩

/-- C3 amended: `createBeacon` performs no uniqueness check and no retry —
whatever single code the generator returned becomes the new beacon's
shortcode, for every store contents. -/
theorem createBeacon_no_retry (db : List BeaconRec) (user : UserRec)
    (newId code : String) (input : BeaconInput)
    (h : input.shortcode = none) :
    (createBeacon db user newId code input).1.shortcode = code := by
  simp [createBeacon, createBeaconDoc, h]

/-- C3 amended, witness at a concrete input. -/
theorem createBeacon_no_retry_witness :
    (createBeacon [fixedBeacon] (anonUser "u5") "b2" "XYZQRS" plainInput).1.shortcode
      = "XYZQRS" :=
  createBeacon_no_retry [fixedBeacon] (anonUser "u5") "b2" "XYZQRS" plainInput rfl

/-! ## C4 -/

/-- C4: for an existing beacon whose leader is not the caller,
`updateBeaconLocation` returns the authorization error, publishes nothing,
and leaves the store — hence the beacon's stored location — unchanged. -/
theorem updateBeaconLocation_nonleader (db : List BeaconRec) (user : UserRec)
    (id : String) (loc : Location) (b : BeaconRec)
    (hfind : findById db id = some b) (hleader : b.leader ≠ user.id) :
    updateBeaconLocation db user id loc
      = (.error (.GenericError "Only the beacon leader can update beacon location"),
         db, []) := by
  unfold updateBeaconLocation
  rw [hfind]
  simp [hleader]

/-- C4 witness: the non-leader `u2` tries to move `fixedBeacon` (led by `u1`). -/
theorem updateBeaconLocation_nonleader_witness :
    updateBeaconLocation [fixedBeacon] (anonUser "u2") "b1" { lat := 9, lon := 9 }
      = (.error (.GenericError "Only the beacon leader can update beacon location"),
         [fixedBeacon], []) :=
  updateBeaconLocation_nonleader [fixedBeacon] (anonUser "u2") "b1"
    { lat := 9, lon := 9 } fixedBeacon rfl (by decide)

/-! ## C5 -/

/-- A registered user with email and stored password hash. -/
def registeredUser : UserRec :=
  { id := "u1", name := "A", email := some "a@b.com",
    password := some "hash-of-pw", location := none, beacons := [] }

/-- A toy secret verifier for concrete runs: the hash of `p` is `"hash-of-" ++ p`. -/
def toyVerify (p h : String) : Bool := h == "hash-of-" ++ p

/-- C5 counterexample: supplying BOTH `id` and `credentials` does not fail
with a ValidationError as the claim requires — the call goes through the
id branch and issues a token. -/
theorem login_both_supplied_no_error :
    login [registeredUser] toyVerify (some "u1")
        (some { email := "a@b.com", password := "pw" })
      = .ok { anon := false, email := some "a@b.com", subject := "u1" } := rfl

/-- C5 amended: `login` fails with the ValidationError when NEITHER `id` nor
`credentials` is supplied, but supplying both is accepted: the id is used
for the lookup and the call can succeed with a token. -/
theorem login_requires_at_least_one :
    (∀ (db : List UserRec) (v : String → String → Bool),
        login db v none none
          = .error (.UserInputError "One of ID and credentials required"))
      ∧ (∃ (db : List UserRec) (v : String → String → Bool) (i : String)
            (c : Credentials) (t : TokenClaims),
          login db v (some i) (some c) = .ok t) :=
  ⟨fun _ _ => rfl,
   ⟨[registeredUser], toyVerify, "u1", { email := "a@b.com", password := "pw" },
    { anon := false, email := some "a@b.com", subject := "u1" }, rfl⟩⟩

/-! ## C6 -/

/-- C6: when the shortcode resolves to a beacon that already lists the
caller among its followers, the second `joinBeacon` returns an error and
changes nothing — the store, the user, and in particular the beacon's
follower list are exactly as before, so no duplicate entry appears. -/
theorem joinBeacon_already_follower (db : List BeaconRec) (user : UserRec)
    (sc : String) (b : BeaconRec)
    (hfind : findByShortcode db sc = some b)
    (hmem : user.id ∈ b.followers) :
    joinBeacon db user sc
      = (.error (.GenericError "Already following the beacon"), db, user, []) := by
  unfold joinBeacon
  rw [hfind]
  simp [hmem]

/-- C6 witness: `u2` is already a follower of `fixedBeacon`; joining again
by its shortcode is rejected with no state change. -/
theorem joinBeacon_already_follower_witness :
    joinBeacon [fixedBeacon] (anonUser "u2") "ABCDEF"
      = (.error (.GenericError "Already following the beacon"),
         [fixedBeacon], anonUser "u2", []) :=
  joinBeacon_already_follower [fixedBeacon] (anonUser "u2") "ABCDEF"
    fixedBeacon rfl (by decide)

/-! ## C7 -/

/-- C7: a beacon is in the `nearbyBeacons` result exactly when it is stored,
its `expiresAt` is not in the past (`expiresAt ≥ now`, the `$gte` query),
and `withinRadius` puts its location within 1500 m of the query point — so
no expired beacon ever appears. -/
theorem nearbyBeacons_mem_iff (db : List BeaconRec) (now : Int)
    (withinRadius : Location → Location → Int → Bool)
    (location : Location) (b : BeaconRec) :
    b ∈ nearbyBeacons db now withinRadius location
      ↔ b ∈ db ∧ now ≤ b.expiresAt ∧ withinRadius b.location location 1500 = true := by
  simp only [nearbyBeacons, List.mem_filter, decide_eq_true_eq]
  tauto

/-! ## C8 -/

/-- C8: for an existing beacon, when the caller is the current leader,
`changeLeader` rewrites only the `leader` field — the result is the stored
record with `leader := newLeaderID`, its followers (and every other field,
by the record update) untouched — and the store receives exactly that
record; when the caller is not the leader, the call errors and the store is
unchanged. -/
theorem changeLeader_frame (db : List BeaconRec) (user : UserRec)
    (beaconID newLeaderID : String) (b : BeaconRec)
    (hfind : findById db beaconID = some b) :
    (b.leader = user.id →
        changeLeader db user beaconID newLeaderID
            = (.ok { b with leader := newLeaderID },
               saveBeacon db { b with leader := newLeaderID })
          ∧ ({ b with leader := newLeaderID } : BeaconRec).followers = b.followers
          ∧ ({ b with leader := newLeaderID } : BeaconRec).id = b.id
          ∧ ({ b with leader := newLeaderID } : BeaconRec).shortcode = b.shortcode
          ∧ ({ b with leader := newLeaderID } : BeaconRec).location = b.location
          ∧ ({ b with leader := newLeaderID } : BeaconRec).landmarks = b.landmarks
          ∧ ({ b with leader := newLeaderID } : BeaconRec).expiresAt = b.expiresAt)
      ∧ (b.leader ≠ user.id →
          changeLeader db user beaconID newLeaderID
            = (.error (.GenericError "Only the beacon leader can update leader"), db)) := by
  unfold changeLeader
  rw [hfind]
  constructor
  · intro h
    simp [h]
  · intro h
    simp [h]

/-- C8 witness: on `fixedBeacon` (leader `u1`, followers `[u2]`), the leader
hands leadership to `u9` and only `leader` changes; the non-leader `u2` is
rejected with the store unchanged. -/
theorem changeLeader_frame_witness :
    (changeLeader [fixedBeacon] (anonUser "u1") "b1" "u9"
        = (.ok { fixedBeacon with leader := "u9" },
           saveBeacon [fixedBeacon] { fixedBeacon with leader := "u9" })
      ∧ ({ fixedBeacon with leader := "u9" } : BeaconRec).followers
          = fixedBeacon.followers
      ∧ ({ fixedBeacon with leader := "u9" } : BeaconRec).id = fixedBeacon.id
      ∧ ({ fixedBeacon with leader := "u9" } : BeaconRec).shortcode
          = fixedBeacon.shortcode
      ∧ ({ fixedBeacon with leader := "u9" } : BeaconRec).location
          = fixedBeacon.location
      ∧ ({ fixedBeacon with leader := "u9" } : BeaconRec).landmarks
          = fixedBeacon.landmarks
      ∧ ({ fixedBeacon with leader := "u9" } : BeaconRec).expiresAt
          = fixedBeacon.expiresAt)
      ∧ changeLeader [fixedBeacon] (anonUser "u2") "b1" "u9"
          = (.error (.GenericError "Only the beacon leader can update leader"),
             [fixedBeacon]) :=
  ⟨(changeLeader_frame [fixedBeacon] (anonUser "u1") "b1" "u9" fixedBeacon rfl).1 rfl,
   (changeLeader_frame [fixedBeacon] (anonUser "u2") "b1" "u9" fixedBeacon rfl).2
     (by decide)⟩

/-! ## C9 -/

/-- C9: when the `beacon` argument carries none of the `leader`, `shortcode`
or `location` keys, the created beacon gets the caller as leader, the
generated code as shortcode and `startLocation` as location; and because the
argument is spread after those generated fields, there is an input carrying
a `leader` key whose value silently displaces the caller. -/
theorem createBeacon_spread_override :
    (∀ (db : List BeaconRec) (user : UserRec) (newId code : String)
        (input : BeaconInput),
      input.leader = none → input.shortcode = none → input.location = none →
        (createBeacon db user newId code input).1.leader = user.id
          ∧ (createBeacon db user newId code input).1.shortcode = code
          ∧ (createBeacon db user newId code input).1.location = input.startLocation)
      ∧ (∃ (db : List BeaconRec) (user : UserRec) (newId code : String)
            (input : BeaconInput),
          input.leader ≠ none
            ∧ (createBeacon db user newId code input).1.leader ≠ user.id) := by
  constructor
  · intro db user newId code input h1 h2 h3
    refine ⟨?_, ?_, ?_⟩ <;> simp [createBeacon, createBeaconDoc, h1, h2, h3]
  · exact ⟨[], anonUser "u1", "b2", "GENCOD",
      { startLocation := { lat := 0, lon := 0 }, expiresAt := 50,
        leader := some "intruder" },
      by decide, by decide⟩

/-- C9 witness: a clean input at a concrete store and caller. -/
theorem createBeacon_spread_override_witness :
    (createBeacon [fixedBeacon] (anonUser "u5") "b2" "GENCOD" plainInput).1.leader
        = (anonUser "u5").id
      ∧ (createBeacon [fixedBeacon] (anonUser "u5") "b2" "GENCOD" plainInput).1.shortcode
          = "GENCOD"
      ∧ (createBeacon [fixedBeacon] (anonUser "u5") "b2" "GENCOD" plainInput).1.location
          = plainInput.startLocation :=
  createBeacon_spread_override.1 [fixedBeacon] (anonUser "u5") "b2" "GENCOD"
    plainInput rfl rfl rfl

/-! ## C10 -/

/-- C10: a `login` naming a user that does not exist — an `id` matching no
stored user, with or without credentials alongside, or credentials whose
email matches no stored user — returns the `"User not found."` error, so no
token is issued. -/
theorem login_user_not_found (db : List UserRec)
    (v : String → String → Bool) :
    (∀ (i : String) (c : Option Credentials),
        findUserById db i = none →
        login db v (some i) c = .error (.GenericError "User not found."))
      ∧ (∀ (c : Credentials),
          findUserByEmail db c.email = none →
          login db v none (some c) = .error (.GenericError "User not found.")) := by
  constructor
  · intro i c h
    simp [login, h]
  · intro c h
    simp [login, h]

/-- C10 witness: unknown id against an empty store, and an email matching no
stored user. -/
theorem login_user_not_found_witness :
    login [] toyVerify (some "ghost") none
        = .error (.GenericError "User not found.")
      ∧ login [registeredUser] toyVerify none
          (some { email := "nobody@b.com", password := "pw" })
          = .error (.GenericError "User not found.") :=
  ⟨(login_user_not_found [] toyVerify).1 "ghost" none rfl,
   (login_user_not_found [registeredUser] toyVerify).2
     { email := "nobody@b.com", password := "pw" } rfl⟩
